import Mathlib

/-!
Verification of the contact-directory repository layer
(`src/repository/contacts.py` and `src/repository/birthday.py`).

The SQLAlchemy store is embedded shallowly: the database is a list of
`Contact` rows together with the autoincrement counter for the next
identifier; `select ... filter_by ... offset ... limit` becomes
`List.filter`/`List.drop`/`List.take`; `Result.scalar_one_or_none`
becomes `scalarOneOrNone`; mutation through the ORM session becomes an
explicit new `DB` value returned next to the function's Python return
value.  Calendar dates are plain `year/month/day` records with the
lexicographic order used both by Python's `datetime.date` comparison and
by SQL `BETWEEN` on `DATE` columns; `timedelta(days = n)` is `n`
iterations of the successor day in the proleptic Gregorian calendar.
-/

namespace ContactsApp

/-- A calendar date (`datetime.date`): year, month, day. -/
structure Date where
  year : Nat
  month : Nat
  day : Nat
deriving DecidableEq, Repr

/-- Python's `date.__le__` / SQL `DATE` order: lexicographic on
(year, month, day). -/
def Date.le (a b : Date) : Bool :=
  Nat.blt a.year b.year ||
    (a.year == b.year &&
      (Nat.blt a.month b.month || (a.month == b.month && Nat.ble a.day b.day)))

/-- Gregorian leap-year rule. -/
def isLeap (y : Nat) : Bool :=
  (y % 4 == 0 && y % 100 != 0) || y % 400 == 0

/-- Number of days in month `m` of year `y`. -/
def daysInMonth (y m : Nat) : Nat :=
  if m == 2 then (if isLeap y then 29 else 28)
  else if m == 4 || m == 6 || m == 9 || m == 11 then 30
  else 31

/-- The next calendar day. -/
def Date.next (d : Date) : Date :=
  if d.day < daysInMonth d.year d.month then ⟨d.year, d.month, d.day + 1⟩
  else if d.month < 12 then ⟨d.year, d.month + 1, 1⟩
  else ⟨d.year + 1, 1, 1⟩

/-- Addition of days: `d + timedelta(days = n)`. -/
def Date.addDays (d : Date) : Nat → Date
  | 0 => d
  | n + 1 => (Date.addDays d n).next

/-- SQL `x BETWEEN lo AND hi` on dates: inclusive at both ends. -/
def Date.between (d lo hi : Date) : Bool :=
  Date.le lo d && Date.le d hi

/-- Modelled from the spec: the `Contact` entity of `src/entity/models.py`
(the models module is not among the provided sources).  Attributes follow
§3 of the spec: system-assigned identifier, first name, last name, email,
phone number, optional birthday (calendar date), address, notes, interest
tags, active flag, and the owning user (represented by the user's
identifier). -/
structure Contact where
  id : Nat
  first_name : String
  last_name : String
  email : String
  phone_number : String
  birthday : Option Date
  address : String
  notes : String
  interests : List String
  is_active : Bool
  user : Nat
deriving DecidableEq, Repr

/-- Modelled from the spec: the validated request payload
(`ContactSchema` of `src/schemas/contact.py`, not among the provided
sources) — the nine mutable fields of a contact, §4.1. -/
structure ContactSchema where
  first_name : String
  last_name : String
  email : String
  phone_number : String
  birthday : Option Date
  address : String
  notes : String
  interests : List String
  is_active : Bool
deriving DecidableEq, Repr

/-- Modelled from the spec: the update payload carries the same nine
mutable fields (`ContactUpdateSchema` of `src/schemas/contact.py`). -/
abbrev ContactUpdateSchema := ContactSchema

/-- The persistent store: the contact rows in insertion (natural) order
and the autoincrement counter for the next assigned identifier. -/
structure DB where
  rows : List Contact
  nextId : Nat
deriving DecidableEq, Repr

/-- Embedding of `Result.scalar_one_or_none()`: one matching row gives that row, zero
gives `None`.  Two or more rows raise `MultipleResultsFound` in
SQLAlchemy; that case never arises under the spec's unique-identifier
invariant and is mapped to `none` here — theorems that could otherwise
meet it carry an explicit no-duplicate-identifier hypothesis. -/
def scalarOneOrNone (l : List Contact) : Option Contact :=
  match l with
  | [c] => some c
  | _ => none

/-- Embedding of `get_contacts` (`src/repository/contacts.py`, List-own): contacts of
`current_user` in natural order with `offset`/`limit` applied. -/
def get_contacts (limit offset : Nat) (db : DB) (current_user : Nat) : List Contact :=
  ((db.rows.filter (fun c => c.user == current_user)).drop offset).take limit

/-- Embedding of `get_contact` (`src/repository/contacts.py`, Get-one): the row whose
id and owner both match, if any. -/
def get_contact (contact_id : Nat) (db : DB) (current_user : Nat) : Option Contact :=
  scalarOneOrNone (db.rows.filter (fun c => c.id == contact_id && c.user == current_user))

/-- The row built by `create_contact`'s line
`Contact(**body.model_dump(exclude_unset = True), user = current_user)`:
the payload fields, the calling user as owner, and the autoincrement
identifier the database assigns on commit. -/
def newContact (body : ContactSchema) (db : DB) (current_user : Nat) : Contact :=
  { id := db.nextId
    first_name := body.first_name
    last_name := body.last_name
    email := body.email
    phone_number := body.phone_number
    birthday := body.birthday
    address := body.address
    notes := body.notes
    interests := body.interests
    is_active := body.is_active
    user := current_user }

/-- Embedding of `create_contact` (`src/repository/contacts.py`): builds a contact
from the payload fields and the calling user, persists it, and returns
the stored row with its assigned identifier. -/
def create_contact (body : ContactSchema) (db : DB) (current_user : Nat) :
    Contact × DB :=
  (newContact body db current_user,
    { rows := db.rows ++ [newContact body db current_user], nextId := db.nextId + 1 })

/-- The nine field assignments of `update_contact` (lines 105–113 of
`src/repository/contacts.py`): every mutable field of the found row is
overwritten with the payload's value; identifier and owner are not
touched. -/
def applyUpdate (body : ContactUpdateSchema) (contact : Contact) : Contact :=
  { contact with
    first_name := body.first_name
    last_name := body.last_name
    email := body.email
    phone_number := body.phone_number
    birthday := body.birthday
    address := body.address
    notes := body.notes
    interests := body.interests
    is_active := body.is_active }

/-- Embedding of `update_contact` (`src/repository/contacts.py`): looks up by
(id, owner); when found, overwrites all nine mutable fields from the
payload (`applyUpdate`) and commits; returns the updated row, or `none`
with the store untouched. -/
def update_contact (contact_id : Nat) (body : ContactUpdateSchema) (db : DB)
    (current_user : Nat) : Option Contact × DB :=
  match scalarOneOrNone
      (db.rows.filter (fun c => c.id == contact_id && c.user == current_user)) with
  | none => (none, db)
  | some contact =>
    (some (applyUpdate body contact),
      { db with rows := db.rows.map (fun c =>
          if c.id == contact_id && c.user == current_user then applyUpdate body contact
          else c) })

/-- Embedding of `delete_contact` (`src/repository/contacts.py`, Delete-own): looks up
by (id, owner); when found, deletes the row and returns it. -/
def delete_contact (contact_id : Nat) (db : DB) (current_user : Nat) :
    Option Contact × DB :=
  match scalarOneOrNone
      (db.rows.filter (fun c => c.id == contact_id && c.user == current_user)) with
  | none => (none, db)
  | some contact =>
    (some contact,
      { db with rows := db.rows.filter (fun c =>
          !(c.id == contact_id && c.user == current_user)) })

/-- Embedding of `delete_all_contact` (`src/repository/contacts.py`, Delete-any):
looks up by id alone — `current_user` is received but never used in the
query; when found, deletes the row and returns it. -/
def delete_all_contact (contact_id : Nat) (db : DB) (current_user : Nat) :
    Option Contact × DB :=
  match scalarOneOrNone (db.rows.filter (fun c => c.id == contact_id)) with
  | none => (none, db)
  | some contact =>
    (some contact,
      { db with rows := db.rows.filter (fun c => !(c.id == contact_id)) })

/-- Embedding of `get_contact_with_upcoming_birthday` (`src/repository/birthday.py`).
`today` stands for `datetime.now().date()`.  The `future_date` parameter
is overwritten by `current_date + timedelta(days = upcoming_days)` before
any use, exactly as in the source (line 27).  The stored query filters on
`Contact.birthday BETWEEN current_date AND future_date` — a comparison of
the full birthday date, year included, against the window — then on the
owner, then applies offset and limit. -/
def get_contact_with_upcoming_birthday (upcoming_days limit offset : Nat)
    (db : DB) (current_user : Nat) (today : Date)
    (future_date : Option Date := none) : List Contact :=
  let current_date := today
  let future_date := Date.addDays current_date upcoming_days
  ((((db.rows.filter (fun c =>
        match c.birthday with
        | some b => Date.between b current_date future_date
        | none => false)).filter
      (fun c => c.user == current_user)).drop offset).take limit)

/-! ### Helper lemmas -/

/-- A filter on (id, owner) is empty when no row matches both. -/
theorem filter_idOwner_eq_nil (contact_id owner : Nat) (rows : List Contact)
    (h : ∀ c ∈ rows, ¬(c.id = contact_id ∧ c.user = owner)) :
    rows.filter (fun c => c.id == contact_id && c.user == owner) = [] := by
  refine List.filter_eq_nil_iff.mpr ?_
  intro c hc
  simp only [Bool.and_eq_true, beq_iff_eq]
  exact h c hc

/-- The `scalar_one_or_none` embedding yields a row exactly on a
singleton result. -/
theorem scalarOneOrNone_eq_some (l : List Contact) (c : Contact) :
    scalarOneOrNone l = some c ↔ l = [c] := by
  cases l with
  | nil => simp [scalarOneOrNone]
  | cons a t =>
    cases t with
    | nil => simp [scalarOneOrNone]
    | cons b t2 => simp [scalarOneOrNone]

/-- With at most one row in the result, `none` means the result was
empty. -/
theorem scalarOneOrNone_eq_none (l : List Contact) (hl : l.length ≤ 1)
    (h : scalarOneOrNone l = none) : l = [] := by
  cases l with
  | nil => rfl
  | cons a t =>
    cases t with
    | nil => simp [scalarOneOrNone] at h
    | cons b t2 =>
      simp only [List.length_cons] at hl
      omega

/-- A predicate that pins the identifier selects at most one row from a
store whose identifiers are pairwise distinct. -/
theorem filter_length_le_one (p : Contact → Bool) (cid : Nat) (rows : List Contact)
    (hnd : (rows.map Contact.id).Nodup) (hp : ∀ c, p c = true → c.id = cid) :
    (rows.filter p).length ≤ 1 := by
  cases hl : rows.filter p with
  | nil => simp
  | cons a t =>
    cases t with
    | nil => simp
    | cons b t2 =>
      exfalso
      have hsub : List.Sublist (rows.filter p) rows := List.filter_sublist rows
      have hnd2 : ((rows.filter p).map Contact.id).Nodup :=
        List.Nodup.sublist (hsub.map Contact.id) hnd
      rw [hl, List.map_cons, List.map_cons] at hnd2
      have hamem : a ∈ rows.filter p := by
        rw [hl]; exact List.mem_cons_self a (b :: t2)
      have hbmem : b ∈ rows.filter p := by
        rw [hl]; exact List.mem_cons_of_mem a (List.mem_cons_self b t2)
      have ha : p a = true := (List.mem_filter.mp hamem).2
      have hb : p b = true := (List.mem_filter.mp hbmem).2
      have hne : a.id ≠ b.id := by
        intro he
        exact (List.nodup_cons.mp hnd2).1 (by rw [he]; exact List.mem_cons_self b.id _)
      exact hne ((hp a ha).trans (hp b hb).symm)

/-- A member of a list of length at most one makes the list that
singleton. -/
theorem eq_singleton_of_mem (c : Contact) (l : List Contact)
    (hm : c ∈ l) (hl : l.length ≤ 1) : l = [c] := by
  cases l with
  | nil => cases hm
  | cons a t =>
    cases t with
    | nil => rw [List.mem_singleton.mp hm]
    | cons b t2 =>
      simp only [List.length_cons] at hl
      omega

/-! ### Concrete sample data for witnesses and counterexamples -/

/-- A sample contact with the given identifier, birthday and owner. -/
def mkContact (i : Nat) (b : Option Date) (u : Nat) : Contact :=
  { id := i
    first_name := "Jane"
    last_name := "Roe"
    email := "jane@example.com"
    phone_number := "0501234567"
    birthday := b
    address := "Main street 1"
    notes := "met at work"
    interests := ["music"]
    is_active := true
    user := u }

/-- A sample update payload. -/
def sampleBody : ContactSchema :=
  { first_name := "John"
    last_name := "Doe"
    email := "john@example.com"
    phone_number := "0507654321"
    birthday := some ⟨1991, 6, 6⟩
    address := "Side street 2"
    notes := "updated note"
    interests := ["books", "chess"]
    is_active := false }

/-! ### Claims -/

/-- Store used for claim C1: one contact of user 7 born on Jan 3, 1990. -/
def c1Db : DB := { rows := [mkContact 1 (some ⟨1990, 1, 3⟩) 7], nextId := 2 }

/-- Claim C1, settled against the code as written.  With
`today = 2025-12-27` and `days = 10` the window end is `2026-01-06`
(first conjunct), but the stored query compares the contact's full
birthday date — year included — with SQL `BETWEEN`, so the caller's own
contact born `1990-01-03` is excluded even though its month/day (Jan 3)
lies inside the wrapped Dec 27 – Jan 6 window: the result is empty
(second conjunct), while the claim and the spec require the contact to
be included for any birth year. -/
theorem C1_full_date_between_excludes_jan3 :
    Date.addDays ⟨2025, 12, 27⟩ 10 = ⟨2026, 1, 6⟩ ∧
    get_contact_with_upcoming_birthday 10 10 0 c1Db 7 ⟨2025, 12, 27⟩ none = [] := by
  exact ⟨by decide, by decide⟩

/-- Store used for claim C2: one contact of user 7 born on Jan 14, 1990. -/
def c2Db : DB := { rows := [mkContact 1 (some ⟨1990, 1, 14⟩) 7], nextId := 2 }

/-- Splitting a day-count addition into two chunks. -/
theorem Date.addDays_add (d : Date) (m n : Nat) :
    Date.addDays d (m + n) = Date.addDays (Date.addDays d m) n := by
  induction n with
  | zero => rfl
  | succ k ih =>
    rw [Nat.add_succ]
    show (Date.addDays d (m + k)).next = (Date.addDays (Date.addDays d m) k).next
    rw [ih]

set_option maxRecDepth 2048 in
/-- Claim C2, settled against the code as written.  With
`today = 2024-01-15` and `days = 365` the window end is `2025-01-14`
(first conjunct), so the month/day exactly 365 days out is Jan 14; the
caller's own contact born `1990-01-14` must be included by the claim,
but the stored query's full-date `BETWEEN` comparison excludes it: the
result is empty (second conjunct).  The `BETWEEN` bounds themselves are
inclusive, as the third and fourth conjuncts record for the window's two
endpoint dates. -/
theorem C2_full_date_between_excludes_365_out :
    Date.addDays ⟨2024, 1, 15⟩ 365 = ⟨2025, 1, 14⟩ ∧
    get_contact_with_upcoming_birthday 365 10 0 c2Db 7 ⟨2024, 1, 15⟩ none = [] ∧
    Date.between ⟨2025, 1, 14⟩ ⟨2024, 1, 15⟩ (Date.addDays ⟨2024, 1, 15⟩ 365) = true ∧
    Date.between ⟨2024, 1, 15⟩ ⟨2024, 1, 15⟩ (Date.addDays ⟨2024, 1, 15⟩ 365) = true := by
  have h1 : Date.addDays ⟨2024, 1, 15⟩ 100 = ⟨2024, 4, 24⟩ := by decide
  have h2 : Date.addDays ⟨2024, 4, 24⟩ 100 = ⟨2024, 8, 2⟩ := by decide
  have h3 : Date.addDays ⟨2024, 8, 2⟩ 100 = ⟨2024, 11, 10⟩ := by decide
  have h4 : Date.addDays ⟨2024, 11, 10⟩ 65 = ⟨2025, 1, 14⟩ := by decide
  have hadd : Date.addDays ⟨2024, 1, 15⟩ 365 = ⟨2025, 1, 14⟩ := by
    calc Date.addDays ⟨2024, 1, 15⟩ 365
        = Date.addDays (Date.addDays ⟨2024, 1, 15⟩ 100) 265 := Date.addDays_add _ 100 265
      _ = Date.addDays (Date.addDays ⟨2024, 4, 24⟩ 100) 165 := by
          rw [h1]; exact Date.addDays_add _ 100 165
      _ = Date.addDays (Date.addDays ⟨2024, 8, 2⟩ 100) 65 := by
          rw [h2]; exact Date.addDays_add _ 100 65
      _ = ⟨2025, 1, 14⟩ := by rw [h3]; exact h4
  refine ⟨hadd, ?_, ?_, ?_⟩
  · simp only [get_contact_with_upcoming_birthday, hadd]
    decide
  · rw [hadd]; decide
  · rw [hadd]; decide

/-- Claim C3: `get_contact` filters on id AND owner together, so whenever
no row matches both — in particular when the id exists under a different
owner — the lookup yields `none` and existence is not leaked. -/
theorem C3_get_contact_absent_without_match (contact_id owner : Nat) (db : DB)
    (h : ∀ c ∈ db.rows, ¬(c.id = contact_id ∧ c.user = owner)) :
    get_contact contact_id db owner = none := by
  unfold get_contact
  rw [filter_idOwner_eq_nil contact_id owner db.rows h]
  rfl

/-- Store used for the C3 witness: contact id 1 exists but belongs to
user 2. -/
def c3Db : DB := { rows := [mkContact 1 (some ⟨1990, 5, 5⟩) 2], nextId := 2 }

/-- Witness for C3: user 3 looks up contact id 1, which exists but is
owned by user 2; the lookup yields `none`. -/
theorem C3_witness : get_contact 1 c3Db 3 = none :=
  C3_get_contact_absent_without_match 1 3 c3Db (by decide)

/-- Claim C4: every contact returned by `get_contacts` (List-own) is
owned by the calling user, for every store, limit and offset. -/
theorem C4_list_own_only_owner (limit offset : Nat) (db : DB) (owner : Nat) :
    ∀ c ∈ get_contacts limit offset db owner, c.user = owner := by
  intro c hc
  unfold get_contacts at hc
  have h1 : c ∈ (db.rows.filter (fun d => d.user == owner)).drop offset :=
    List.take_subset limit _ hc
  have h2 : c ∈ db.rows.filter (fun d => d.user == owner) :=
    List.drop_subset offset _ h1
  exact beq_iff_eq.mp (List.mem_filter.mp h2).2

/-- Store used for the C4 witness: one contact of user 2 and one of
user 5. -/
def c4Db : DB :=
  { rows := [mkContact 1 (some ⟨1990, 5, 5⟩) 2, mkContact 2 none 5], nextId := 3 }

/-- Witness for C4: the contact of user 2 is in user 2's own list, and
the theorem yields that its owner is user 2. -/
theorem C4_witness :
    mkContact 1 (some ⟨1990, 5, 5⟩) 2 ∈ get_contacts 10 0 c4Db 2 ∧
    (mkContact 1 (some ⟨1990, 5, 5⟩) 2).user = 2 :=
  ⟨by decide, C4_list_own_only_owner 10 0 c4Db 2 (mkContact 1 (some ⟨1990, 5, 5⟩) 2) (by decide)⟩

/-- Claim C5: `update_contact` on an (id, owner) pair with no matching
row returns `None` and leaves the store exactly as it was. -/
theorem C5_update_absent_no_mutation (contact_id : Nat) (body : ContactUpdateSchema)
    (db : DB) (owner : Nat)
    (h : ∀ c ∈ db.rows, ¬(c.id = contact_id ∧ c.user = owner)) :
    update_contact contact_id body db owner = (none, db) := by
  unfold update_contact
  rw [filter_idOwner_eq_nil contact_id owner db.rows h]
  rfl

/-- Store used for the C5 witness: contact id 1 belongs to user 2. -/
def c5Db : DB := { rows := [mkContact 1 (some ⟨1990, 5, 5⟩) 2], nextId := 2 }

/-- Witness for C5: user 3 updates contact id 1, which belongs to
user 2; the call returns `none` and the store is returned unchanged. -/
theorem C5_witness : update_contact 1 sampleBody c5Db 3 = (none, c5Db) :=
  C5_update_absent_no_mutation 1 sampleBody c5Db 3 (by decide)

/-- Claim C6: when `update_contact` finds the (id, owner) row, the
record it returns carries all nine payload fields verbatim (a full
replace, never a partial patch), keeps the identifier and owner of the
found row, and is a row of the resulting store. -/
theorem C6_update_full_replace (contact_id : Nat) (body : ContactUpdateSchema)
    (db : DB) (owner : Nat) (c' : Contact)
    (h : (update_contact contact_id body db owner).1 = some c') :
    c'.id = contact_id ∧ c'.user = owner ∧
    c'.first_name = body.first_name ∧ c'.last_name = body.last_name ∧
    c'.email = body.email ∧ c'.phone_number = body.phone_number ∧
    c'.birthday = body.birthday ∧ c'.address = body.address ∧
    c'.notes = body.notes ∧ c'.interests = body.interests ∧
    c'.is_active = body.is_active ∧
    c' ∈ (update_contact contact_id body db owner).2.rows := by
  cases hl : db.rows.filter (fun c => c.id == contact_id && c.user == owner) with
  | nil =>
    have hupd : update_contact contact_id body db owner = (none, db) := by
      unfold update_contact
      rw [hl]
      rfl
    rw [hupd] at h
    simp at h
  | cons a t =>
    cases t with
    | cons b t2 =>
      have hupd : update_contact contact_id body db owner = (none, db) := by
        unfold update_contact
        rw [hl]
        rfl
      rw [hupd] at h
      simp at h
    | nil =>
      have hmem : a ∈ db.rows.filter (fun c => c.id == contact_id && c.user == owner) := by
        rw [hl]
        exact List.mem_singleton_self a
      have hpred := (List.mem_filter.mp hmem).2
      have hids : a.id = contact_id ∧ a.user = owner := by
        simpa only [Bool.and_eq_true, beq_iff_eq] using hpred
      have heq : update_contact contact_id body db owner =
          (some (applyUpdate body a),
            { db with rows := db.rows.map (fun c =>
                if c.id == contact_id && c.user == owner then applyUpdate body a
                else c) }) := by
        unfold update_contact
        rw [hl]
        rfl
      rw [heq] at h
      have hc' : applyUpdate body a = c' := Option.some.inj h
      subst hc'
      refine ⟨hids.1, hids.2, rfl, rfl, rfl, rfl, rfl, rfl, rfl, rfl, rfl, ?_⟩
      rw [heq]
      refine List.mem_map.mpr ⟨a, (List.mem_filter.mp hmem).1, ?_⟩
      rw [if_pos hpred]

/-- Store used for the C6 witness: contact id 1 belongs to user 2. -/
def c6Db : DB := { rows := [mkContact 1 (some ⟨1990, 5, 5⟩) 2], nextId := 2 }

/-- Witness for C6: user 2 updates their contact id 1 with the sample
payload; the returned record has the payload's nine fields, identifier 1
and owner 2, and is stored. -/
theorem C6_witness :
    (update_contact 1 sampleBody c6Db 2).1 =
      some (applyUpdate sampleBody (mkContact 1 (some ⟨1990, 5, 5⟩) 2)) ∧
    ((applyUpdate sampleBody (mkContact 1 (some ⟨1990, 5, 5⟩) 2)).id = 1 ∧
      (applyUpdate sampleBody (mkContact 1 (some ⟨1990, 5, 5⟩) 2)).user = 2 ∧
      (applyUpdate sampleBody (mkContact 1 (some ⟨1990, 5, 5⟩) 2)).first_name =
        sampleBody.first_name ∧
      (applyUpdate sampleBody (mkContact 1 (some ⟨1990, 5, 5⟩) 2)).last_name =
        sampleBody.last_name ∧
      (applyUpdate sampleBody (mkContact 1 (some ⟨1990, 5, 5⟩) 2)).email =
        sampleBody.email ∧
      (applyUpdate sampleBody (mkContact 1 (some ⟨1990, 5, 5⟩) 2)).phone_number =
        sampleBody.phone_number ∧
      (applyUpdate sampleBody (mkContact 1 (some ⟨1990, 5, 5⟩) 2)).birthday =
        sampleBody.birthday ∧
      (applyUpdate sampleBody (mkContact 1 (some ⟨1990, 5, 5⟩) 2)).address =
        sampleBody.address ∧
      (applyUpdate sampleBody (mkContact 1 (some ⟨1990, 5, 5⟩) 2)).notes =
        sampleBody.notes ∧
      (applyUpdate sampleBody (mkContact 1 (some ⟨1990, 5, 5⟩) 2)).interests =
        sampleBody.interests ∧
      (applyUpdate sampleBody (mkContact 1 (some ⟨1990, 5, 5⟩) 2)).is_active =
        sampleBody.is_active ∧
      applyUpdate sampleBody (mkContact 1 (some ⟨1990, 5, 5⟩) 2) ∈
        (update_contact 1 sampleBody c6Db 2).2.rows) :=
  ⟨by decide,
    C6_update_full_replace 1 sampleBody c6Db 2
      (applyUpdate sampleBody (mkContact 1 (some ⟨1990, 5, 5⟩) 2)) (by decide)⟩

/-- Claim C7: deleting by (id, owner) and then fetching the same
(id, owner) on the resulting store yields `none`, for every store whose
identifiers are pairwise distinct (the spec's identifier-uniqueness
invariant, under which `scalar_one_or_none` never raises). -/
theorem C7_delete_then_get_absent (contact_id owner : Nat) (db : DB)
    (hnd : (db.rows.map Contact.id).Nodup) :
    get_contact contact_id (delete_contact contact_id db owner).2 owner = none := by
  have hlen : (db.rows.filter (fun c => c.id == contact_id && c.user == owner)).length ≤ 1 :=
    filter_length_le_one _ contact_id db.rows hnd (by
      intro c hc
      simp only [Bool.and_eq_true, beq_iff_eq] at hc
      exact hc.1)
  cases hone : scalarOneOrNone
      (db.rows.filter (fun c => c.id == contact_id && c.user == owner)) with
  | none =>
    have hnil := scalarOneOrNone_eq_none _ hlen hone
    have hdel : delete_contact contact_id db owner = (none, db) := by
      unfold delete_contact
      rw [hone]
    rw [hdel]
    unfold get_contact
    rw [hnil]
    rfl
  | some contact =>
    have hdel : delete_contact contact_id db owner =
        (some contact,
          { db with rows := db.rows.filter (fun c =>
              !(c.id == contact_id && c.user == owner)) }) := by
      unfold delete_contact
      rw [hone]
    rw [hdel]
    unfold get_contact
    rw [List.filter_filter]
    have hnil : db.rows.filter (fun a =>
        (a.id == contact_id && a.user == owner) &&
          !(a.id == contact_id && a.user == owner)) = [] := by
      refine List.filter_eq_nil_iff.mpr ?_
      intro c hc
      simp
    rw [hnil]
    rfl

/-- Store used for the C7 witness: contact id 1 belongs to user 2. -/
def c7Db : DB := { rows := [mkContact 1 (some ⟨1990, 5, 5⟩) 2], nextId := 2 }

/-- Witness for C7: user 2 deletes their contact id 1; fetching id 1 as
user 2 afterwards yields `none`. -/
theorem C7_witness : get_contact 1 (delete_contact 1 c7Db 2).2 2 = none :=
  C7_delete_then_get_absent 1 2 c7Db (by decide)

/-- Claim C8: creating a contact and immediately fetching it by the
assigned identifier with the same owner returns the stored record; its
identifier is the system-assigned one, its owner is the caller, and all
nine submitted fields are stored verbatim. -/
theorem C8_create_then_get (body : ContactSchema) (db : DB) (owner : Nat)
    (h : ∀ c ∈ db.rows, c.id ≠ db.nextId) :
    get_contact (create_contact body db owner).1.id (create_contact body db owner).2 owner =
      some (create_contact body db owner).1 ∧
    (create_contact body db owner).1.id = db.nextId ∧
    (create_contact body db owner).1.user = owner ∧
    (create_contact body db owner).1.first_name = body.first_name ∧
    (create_contact body db owner).1.last_name = body.last_name ∧
    (create_contact body db owner).1.email = body.email ∧
    (create_contact body db owner).1.phone_number = body.phone_number ∧
    (create_contact body db owner).1.birthday = body.birthday ∧
    (create_contact body db owner).1.address = body.address ∧
    (create_contact body db owner).1.notes = body.notes ∧
    (create_contact body db owner).1.interests = body.interests ∧
    (create_contact body db owner).1.is_active = body.is_active := by
  refine ⟨?_, rfl, rfl, rfl, rfl, rfl, rfl, rfl, rfl, rfl, rfl, rfl⟩
  show get_contact db.nextId
      { rows := db.rows ++ [newContact body db owner], nextId := db.nextId + 1 } owner =
    some (newContact body db owner)
  unfold get_contact
  show scalarOneOrNone ((db.rows ++ [newContact body db owner]).filter
      (fun c => c.id == db.nextId && c.user == owner)) = some (newContact body db owner)
  rw [List.filter_append]
  have hnil : db.rows.filter (fun c => c.id == db.nextId && c.user == owner) = [] := by
    refine List.filter_eq_nil_iff.mpr ?_
    intro c hc
    simp only [Bool.and_eq_true, beq_iff_eq]
    intro hpair
    exact h c hc hpair.1
  have hone : [newContact body db owner].filter
      (fun c => c.id == db.nextId && c.user == owner) = [newContact body db owner] := by
    simp [newContact]
  rw [hnil, hone]
  rfl

/-- Store used for the C8 witness: one existing contact of user 4. -/
def c8Db : DB := { rows := [mkContact 1 (some ⟨1990, 5, 5⟩) 4], nextId := 2 }

/-- Witness for C8: user 4 creates a contact from the sample payload;
fetching the assigned id as user 4 returns the stored record. -/
theorem C8_witness :
    (∀ c ∈ c8Db.rows, c.id ≠ c8Db.nextId) ∧
    get_contact (create_contact sampleBody c8Db 4).1.id (create_contact sampleBody c8Db 4).2 4 =
      some (create_contact sampleBody c8Db 4).1 :=
  ⟨by decide, (C8_create_then_get sampleBody c8Db 4 (by decide)).1⟩

/-- Claim C9: `delete_all_contact` looks up by id alone, with no owner
filter.  For every store with pairwise-distinct identifiers and every
caller: a row with the requested id — whoever owns it — is removed and
returned; when no row has the id, the call returns `none` and the store
is returned unchanged. -/
theorem C9_delete_any_unscoped (contact_id caller : Nat) (db : DB)
    (hnd : (db.rows.map Contact.id).Nodup) :
    (∀ c ∈ db.rows, c.id = contact_id →
        delete_all_contact contact_id db caller =
          (some c, { rows := db.rows.filter (fun r => !(r.id == contact_id)),
                     nextId := db.nextId })) ∧
    ((∀ c ∈ db.rows, c.id ≠ contact_id) →
        delete_all_contact contact_id db caller = (none, db)) := by
  constructor
  · intro c hc hid
    have hmem : c ∈ db.rows.filter (fun r => r.id == contact_id) :=
      List.mem_filter.mpr ⟨hc, by simp [hid]⟩
    have hlen : (db.rows.filter (fun r => r.id == contact_id)).length ≤ 1 :=
      filter_length_le_one _ contact_id db.rows hnd (fun x hx => beq_iff_eq.mp hx)
    have hsing : db.rows.filter (fun r => r.id == contact_id) = [c] :=
      eq_singleton_of_mem c _ hmem hlen
    unfold delete_all_contact
    rw [hsing]
    rfl
  · intro h
    have hnil : db.rows.filter (fun r => r.id == contact_id) = [] := by
      refine List.filter_eq_nil_iff.mpr ?_
      intro c hc
      simp only [beq_iff_eq]
      exact h c hc
    unfold delete_all_contact
    rw [hnil]
    rfl

/-- Store used for the C9 witness: contact id 1 belongs to user 2; the
caller is user 9, not the owner. -/
def c9Db : DB := { rows := [mkContact 1 (some ⟨1990, 5, 5⟩) 2], nextId := 2 }

/-- Witness for C9: caller 9 deletes contact id 1 although it belongs to
user 2 — the row is removed and returned; deleting the absent id 5
returns `none` with the store unchanged. -/
theorem C9_witness :
    delete_all_contact 1 c9Db 9 =
      (some (mkContact 1 (some ⟨1990, 5, 5⟩) 2),
        { rows := c9Db.rows.filter (fun r => !(r.id == 1)), nextId := c9Db.nextId }) ∧
    delete_all_contact 5 c9Db 9 = (none, c9Db) :=
  ⟨(C9_delete_any_unscoped 1 9 c9Db (by decide)).1
      (mkContact 1 (some ⟨1990, 5, 5⟩) 2) (by decide) (by decide),
    (C9_delete_any_unscoped 5 9 c9Db (by decide)).2 (by decide)⟩

/-- Claim C10: the `future_date` parameter of the birthday query is
reassigned from `today + timedelta(days = upcoming_days)` before any
use, so any two calls that differ only in the passed `future_date`
return the same list. -/
theorem C10_future_date_has_no_effect (upcoming_days limit offset : Nat) (db : DB)
    (current_user : Nat) (today : Date) (fd1 fd2 : Option Date) :
    get_contact_with_upcoming_birthday upcoming_days limit offset db current_user today fd1 =
      get_contact_with_upcoming_birthday upcoming_days limit offset db current_user today fd2 :=
  rfl

end ContactsApp
